import Mathlib

/-!
Verification of the Sphinx search index `src/searchindex.js` of the
AllenCellModeling/step repository.

The source file is a single statement `Search.setIndex({...})` whose argument
is one static JSON-like object literal.  We embed that literal verbatim as a
value of an inductive type `JValue` of JSON values (all numbers occurring in
the file are natural numbers), and state the structural properties of the
index as decidable checks over that value.
-/

namespace SearchIdx

/-- JSON-like values: strings, natural numbers, arrays and objects
(objects keep their key order, as in the source file). -/
inductive JValue where
  | str : String → JValue
  | num : Nat → JValue
  | arr : List JValue → JValue
  | obj : List (String × JValue) → JValue

/-- The object literal passed to `Search.setIndex` in `src/searchindex.js`,
transcribed field by field in source order. -/
def searchIndex : JValue := JValue.obj [
    ("docnames", JValue.arr [JValue.str "contributing", JValue.str "datastep", JValue.str "datastep.bin",
      JValue.str "index", JValue.str "installation", JValue.str "modules"]),
    ("envversion", JValue.obj [("sphinx.domains.c", JValue.num 1), ("sphinx.domains.changeset",
      JValue.num 1), ("sphinx.domains.citation", JValue.num 1), ("sphinx.domains.cpp", JValue.num 1),
      ("sphinx.domains.index", JValue.num 1), ("sphinx.domains.javascript", JValue.num 1),
      ("sphinx.domains.math", JValue.num 2), ("sphinx.domains.python", JValue.num 1), ("sphinx.domains.rst",
      JValue.num 1), ("sphinx.domains.std", JValue.num 1), ("sphinx.ext.viewcode", JValue.num 1), ("sphinx",
      JValue.num 56)]),
    ("filenames", JValue.arr [JValue.str "contributing.rst", JValue.str "datastep.rst",
      JValue.str "datastep.bin.rst", JValue.str "index.rst", JValue.str "installation.rst",
      JValue.str "modules.rst"]),
    ("objects", JValue.obj [("", JValue.obj [("datastep", JValue.arr [JValue.num 1, JValue.num 0,
      JValue.num 0, JValue.str "-"])]), ("datastep.bin", JValue.obj [("make_new_step",
      JValue.arr [JValue.num 2, JValue.num 0, JValue.num 0, JValue.str "-"])]),
      ("datastep.bin.make_new_step", JValue.obj [("Args", JValue.arr [JValue.num 2, JValue.num 1,
      JValue.num 1, JValue.str ""]), ("find_last_import_line", JValue.arr [JValue.num 2, JValue.num 2,
      JValue.num 1, JValue.str ""]), ("insert_new_class", JValue.arr [JValue.num 2, JValue.num 2,
      JValue.num 1, JValue.str ""]), ("insert_new_import", JValue.arr [JValue.num 2, JValue.num 2,
      JValue.num 1, JValue.str ""]), ("line_match__all__", JValue.arr [JValue.num 2, JValue.num 2,
      JValue.num 1, JValue.str ""]), ("list_match_in_line", JValue.arr [JValue.num 2, JValue.num 2,
      JValue.num 1, JValue.str ""]), ("main", JValue.arr [JValue.num 2, JValue.num 2, JValue.num 1,
      JValue.str ""])]), ("datastep.exceptions", JValue.obj [("DirectoryNotFoundError",
      JValue.arr [JValue.num 1, JValue.num 3, JValue.num 1, JValue.str ""]), ("InvalidGitStatus",
      JValue.arr [JValue.num 1, JValue.num 3, JValue.num 1, JValue.str ""]), ("PackagingError",
      JValue.arr [JValue.num 1, JValue.num 3, JValue.num 1, JValue.str ""])]), ("datastep.file_utils",
      JValue.obj [("create_unique_logical_key", JValue.arr [JValue.num 1, JValue.num 2, JValue.num 1,
      JValue.str ""]), ("make_json_serializable", JValue.arr [JValue.num 1, JValue.num 2, JValue.num 1,
      JValue.str ""]), ("manifest_filepaths_abs2rel", JValue.arr [JValue.num 1, JValue.num 2, JValue.num 1,
      JValue.str ""]), ("manifest_filepaths_rel2abs", JValue.arr [JValue.num 1, JValue.num 2, JValue.num 1,
      JValue.str ""]), ("resolve_directory", JValue.arr [JValue.num 1, JValue.num 2, JValue.num 1,
      JValue.str ""]), ("resolve_filepath", JValue.arr [JValue.num 1, JValue.num 2, JValue.num 1,
      JValue.str ""])]), ("datastep.quilt_utils", JValue.obj [("ValidationDetails", JValue.arr [JValue.num 1,
      JValue.num 1, JValue.num 1, JValue.str ""]), ("clean_metadata", JValue.arr [JValue.num 1, JValue.num 2,
      JValue.num 1, JValue.str ""]), ("create_package", JValue.arr [JValue.num 1, JValue.num 2, JValue.num 1,
      JValue.str ""]), ("route_validator", JValue.arr [JValue.num 1, JValue.num 2, JValue.num 1,
      JValue.str ""]), ("validate_filepath", JValue.arr [JValue.num 1, JValue.num 2, JValue.num 1,
      JValue.str ""]), ("validate_manifest", JValue.arr [JValue.num 1, JValue.num 2, JValue.num 1,
      JValue.str ""])]), ("datastep.quilt_utils.ValidationDetails", JValue.obj [("details_type",
      JValue.arr [JValue.num 1, JValue.num 4, JValue.num 1, JValue.str ""]), ("index",
      JValue.arr [JValue.num 1, JValue.num 4, JValue.num 1, JValue.str ""]), ("origin_column",
      JValue.arr [JValue.num 1, JValue.num 4, JValue.num 1, JValue.str ""]), ("value",
      JValue.arr [JValue.num 1, JValue.num 4, JValue.num 1, JValue.str ""])]), ("datastep.step",
      JValue.obj [("Step", JValue.arr [JValue.num 1, JValue.num 1, JValue.num 1, JValue.str ""]),
      ("log_run_params", JValue.arr [JValue.num 1, JValue.num 2, JValue.num 1, JValue.str ""])]),
      ("datastep.step.Step", JValue.obj [("checkout", JValue.arr [JValue.num 1, JValue.num 4, JValue.num 1,
      JValue.str ""]), ("clean", JValue.arr [JValue.num 1, JValue.num 4, JValue.num 1, JValue.str ""]),
      ("get_result", JValue.arr [JValue.num 1, JValue.num 4, JValue.num 1, JValue.str ""]),
      ("manifest_filepaths_abs2rel", JValue.arr [JValue.num 1, JValue.num 4, JValue.num 1, JValue.str ""]),
      ("manifest_filepaths_rel2abs", JValue.arr [JValue.num 1, JValue.num 4, JValue.num 1, JValue.str ""]),
      ("project_local_staging_dir", JValue.arr [JValue.num 1, JValue.num 4, JValue.num 1, JValue.str ""]),
      ("pull", JValue.arr [JValue.num 1, JValue.num 4, JValue.num 1, JValue.str ""]), ("push",
      JValue.arr [JValue.num 1, JValue.num 4, JValue.num 1, JValue.str ""]), ("quilt_package_name",
      JValue.arr [JValue.num 1, JValue.num 4, JValue.num 1, JValue.str ""]), ("quilt_package_owner",
      JValue.arr [JValue.num 1, JValue.num 4, JValue.num 1, JValue.str ""]), ("run",
      JValue.arr [JValue.num 1, JValue.num 4, JValue.num 1, JValue.str ""]), ("step_local_staging_dir",
      JValue.arr [JValue.num 1, JValue.num 4, JValue.num 1, JValue.str ""]), ("step_name",
      JValue.arr [JValue.num 1, JValue.num 4, JValue.num 1, JValue.str ""]), ("storage_bucket",
      JValue.arr [JValue.num 1, JValue.num 4, JValue.num 1, JValue.str ""]), ("upstream_tasks",
      JValue.arr [JValue.num 1, JValue.num 4, JValue.num 1, JValue.str ""])]), ("datastep",
      JValue.obj [("bin", JValue.arr [JValue.num 2, JValue.num 0, JValue.num 0, JValue.str "-"]),
      ("constants", JValue.arr [JValue.num 1, JValue.num 0, JValue.num 0, JValue.str "-"]), ("exceptions",
      JValue.arr [JValue.num 1, JValue.num 0, JValue.num 0, JValue.str "-"]), ("file_utils",
      JValue.arr [JValue.num 1, JValue.num 0, JValue.num 0, JValue.str "-"]), ("get_module_version",
      JValue.arr [JValue.num 1, JValue.num 2, JValue.num 1, JValue.str ""]), ("quilt_utils",
      JValue.arr [JValue.num 1, JValue.num 0, JValue.num 0, JValue.str "-"]), ("step",
      JValue.arr [JValue.num 1, JValue.num 0, JValue.num 0, JValue.str "-"])])]),
    ("objnames", JValue.obj [("0", JValue.arr [JValue.str "py", JValue.str "module",
      JValue.str "Python module"]), ("1", JValue.arr [JValue.str "py", JValue.str "class",
      JValue.str "Python class"]), ("2", JValue.arr [JValue.str "py", JValue.str "function",
      JValue.str "Python function"]), ("3", JValue.arr [JValue.str "py", JValue.str "exception",
      JValue.str "Python exception"]), ("4", JValue.arr [JValue.str "py", JValue.str "method",
      JValue.str "Python method"])]),
    ("objtypes", JValue.obj [("0", JValue.str "py:module"), ("1", JValue.str "py:class"), ("2",
      JValue.str "py:function"), ("3", JValue.str "py:exception"), ("4", JValue.str "py:method")]),
    ("terms", JValue.obj [("class", JValue.arr [JValue.num 1, JValue.num 2, JValue.num 3]), ("default",
      JValue.num 1), ("final", JValue.num 1), ("float", JValue.num 1), ("function", JValue.arr [JValue.num 1,
      JValue.num 3]), ("int", JValue.num 1), ("new", JValue.arr [JValue.num 1, JValue.num 3]), ("public",
      JValue.num 4), ("return", JValue.num 1), ("short", JValue.num 0), ("true", JValue.num 1), ("For",
      JValue.num 3), ("The", JValue.arr [JValue.num 1, JValue.num 4]), ("Then", JValue.num 0), ("There",
      JValue.num 1), ("Useful", JValue.num 1), ("absolut", JValue.num 1), ("add", JValue.num 0), ("address",
      JValue.num 1), ("after", JValue.num 1), ("alia", JValue.num 1), ("all", JValue.arr [JValue.num 0,
      JValue.num 1]), ("allen", JValue.num 3), ("allencellmodel", JValue.arr [JValue.num 3, JValue.num 4]),
      ("also", JValue.num 0), ("alwai", JValue.arr [JValue.num 0, JValue.num 1, JValue.num 4]), ("amount",
      JValue.num 3), ("anaconda", JValue.num 0), ("ani", JValue.num 1), ("anoth", JValue.num 1), ("appreci",
      JValue.num 0), ("arg", JValue.num 2), ("argpars", JValue.num 2), ("attempt", JValue.num 1), ("base",
      JValue.arr [JValue.num 1, JValue.num 2, JValue.num 3]), ("becom", JValue.num 1), ("bin",
      JValue.arr [JValue.num 1, JValue.num 5]), ("bit", JValue.num 0), ("bool", JValue.num 1), ("branch",
      JValue.num 0), ("bucket", JValue.num 1), ("bugfix", JValue.num 0), ("build", JValue.num 0),
      ("bumpvers", JValue.arr [JValue.num 0, JValue.num 3]), ("can", JValue.arr [JValue.num 0, JValue.num 1,
      JValue.num 4]), ("centric", JValue.num 3), ("chang", JValue.num 0), ("check", JValue.num 0),
      ("checkout", JValue.arr [JValue.num 0, JValue.num 1]), ("clean", JValue.num 1), ("clean_metadata",
      JValue.num 1), ("clone", JValue.arr [JValue.num 0, JValue.num 4]), ("code", JValue.arr [JValue.num 1,
      JValue.num 3]), ("column", JValue.num 1), ("com", JValue.arr [JValue.num 0, JValue.num 3,
      JValue.num 4]), ("command", JValue.num 4), ("commit", JValue.arr [JValue.num 0, JValue.num 1]),
      ("complet", JValue.num 1), ("comput", JValue.num 1), ("config", JValue.num 1), ("constant",
      JValue.num 5), ("content", JValue.num 5), ("context", JValue.arr [JValue.num 1, JValue.num 3]),
      ("contribut", JValue.num 3), ("convert", JValue.num 1), ("cookiecutt", JValue.num 3), ("copi",
      JValue.num 4), ("core", JValue.num 1), ("creat", JValue.arr [JValue.num 0, JValue.num 1,
      JValue.num 3]), ("create_packag", JValue.num 1), ("create_unique_logical_kei", JValue.num 1),
      ("credit", JValue.num 0), ("csv", JValue.num 1), ("curl", JValue.num 4), ("dag",
      JValue.arr [JValue.num 1, JValue.num 3]), ("data", JValue.arr [JValue.num 1, JValue.num 3]),
      ("data_vers", JValue.num 1), ("datafram", JValue.num 1), ("datastep", JValue.arr [JValue.num 0,
      JValue.num 4]), ("debug", JValue.num 1), ("defin", JValue.num 1), ("depend", JValue.num 1),
      ("dependeci", JValue.num 1), ("deploi", JValue.num 2), ("descript", JValue.num 0), ("detail",
      JValue.arr [JValue.num 0, JValue.num 1]), ("details_typ", JValue.num 1), ("dev", JValue.num 0),
      ("develop", JValue.arr [JValue.num 0, JValue.num 1]), ("dict", JValue.num 1), ("dictionari",
      JValue.num 1), ("differ", JValue.num 1), ("direct_upstream_task", JValue.num 1), ("directori",
      JValue.arr [JValue.num 1, JValue.num 2]), ("directorynotfounderror", JValue.num 1),
      ("distributed_executor_address", JValue.num 1), ("don", JValue.num 4), ("done", JValue.num 0),
      ("download", JValue.num 4), ("downstream", JValue.num 1), ("dure", JValue.num 1), ("each",
      JValue.num 3), ("easier", JValue.num 1), ("edit", JValue.num 0), ("either", JValue.num 4), ("enforc",
      JValue.num 1), ("engin", JValue.num 1), ("entir", JValue.num 1), ("environ", JValue.num 0), ("etc",
      JValue.num 1), ("everi", JValue.num 0), ("except", JValue.num 5), ("executor", JValue.num 1), ("fals",
      JValue.num 1), ("featur", JValue.num 0), ("few", JValue.num 1), ("field", JValue.num 1), ("file",
      JValue.arr [JValue.num 0, JValue.num 1]), ("file_util", JValue.num 5), ("filepath", JValue.num 1),
      ("filepath_column", JValue.num 1), ("find_last_import_lin", JValue.num 2), ("first", JValue.num 1),
      ("flag", JValue.num 1), ("flow", JValue.num 1), ("follow", JValue.num 1), ("fork", JValue.num 0),
      ("found", JValue.num 0), ("frame", JValue.num 1), ("free", JValue.num 3), ("from",
      JValue.arr [JValue.num 1, JValue.num 3]), ("full", JValue.num 3), ("func", JValue.num 1), ("gener",
      JValue.num 1), ("get", JValue.arr [JValue.num 1, JValue.num 2, JValue.num 3]), ("get_module_vers",
      JValue.num 1), ("get_result", JValue.num 1), ("git", JValue.arr [JValue.num 0, JValue.num 1,
      JValue.num 3, JValue.num 4]), ("github", JValue.arr [JValue.num 0, JValue.num 3, JValue.num 4]),
      ("given", JValue.num 0), ("greatli", JValue.num 0), ("guid", JValue.num 4), ("handl",
      JValue.arr [JValue.num 0, JValue.num 1]), ("hard", JValue.num 1), ("have", JValue.num 4), ("haven",
      JValue.num 1), ("head", JValue.num 3), ("heavi", JValue.num 1), ("heavili", JValue.num 3), ("help",
      JValue.num 0), ("here", JValue.arr [JValue.num 0, JValue.num 1]), ("how", JValue.arr [JValue.num 0,
      JValue.num 1]), ("howev", JValue.num 1), ("http", JValue.arr [JValue.num 3, JValue.num 4]), ("idea",
      JValue.num 3), ("includ", JValue.num 0), ("index", JValue.arr [JValue.num 1, JValue.num 3]), ("inform",
      JValue.num 3), ("inherit", JValue.num 1), ("initi", JValue.num 1), ("insert_new_class", JValue.num 2),
      ("insert_new_import", JValue.num 2), ("instal", JValue.arr [JValue.num 0, JValue.num 2]), ("instanc",
      JValue.num 1), ("institut", JValue.num 3), ("invalidgitstatu", JValue.num 1), ("isn", JValue.num 1),
      ("item", JValue.num 1), ("iter", JValue.num 1), ("itself", JValue.num 3), ("json", JValue.num 1),
      ("kwarg", JValue.num 1), ("larg", JValue.num 3), ("last_old_lin", JValue.num 2), ("latest",
      JValue.num 1), ("level", JValue.num 1), ("librari", JValue.num 3), ("licens", JValue.num 3), ("line",
      JValue.num 2), ("line_match__all__", JValue.num 2), ("lint", JValue.num 0), ("list", JValue.num 1),
      ("list_match_in_lin", JValue.num 2), ("littl", JValue.num 0), ("local", JValue.arr [JValue.num 0,
      JValue.num 1]), ("log", JValue.num 1), ("log_run_param", JValue.num 1), ("look", JValue.num 3),
      ("lowercas", JValue.num 1), ("main", JValue.num 2), ("maintain", JValue.num 0), ("major",
      JValue.num 0), ("make", JValue.arr [JValue.num 0, JValue.num 1, JValue.num 3]), ("make_json_serializ",
      JValue.num 1), ("make_new_step", JValue.arr [JValue.num 1, JValue.num 5]), ("manag", JValue.num 1),
      ("manifest", JValue.num 1), ("manifest_filepaths_abs2rel", JValue.num 1), ("manifest_filepaths_rel2ab",
      JValue.num 1), ("manipul", JValue.num 1), ("map", JValue.num 1), ("master", JValue.num 4), ("match",
      JValue.num 1), ("mean", JValue.num 1), ("merg", JValue.num 0), ("metadata", JValue.num 1),
      ("metadata_column", JValue.num 1), ("method", JValue.arr [JValue.num 1, JValue.num 4]), ("minor",
      JValue.num 0), ("mode", JValue.num 0), ("modul", JValue.arr [JValue.num 3, JValue.num 5]), ("more",
      JValue.arr [JValue.num 1, JValue.num 3]), ("most", JValue.arr [JValue.num 1, JValue.num 4]), ("much",
      JValue.num 1), ("name", JValue.num 1), ("namespac", JValue.num 2), ("need", JValue.num 1),
      ("new_class_dir_str", JValue.num 2), ("new_class_name_str", JValue.num 2), ("none", JValue.num 1),
      ("note", JValue.num 1), ("now", JValue.num 0), ("number", JValue.num 1), ("object", JValue.num 1),
      ("old_list_str", JValue.num 2), ("onc", JValue.arr [JValue.num 0, JValue.num 4]), ("onli",
      JValue.num 1), ("option", JValue.num 1), ("origin", JValue.arr [JValue.num 0, JValue.num 1]),
      ("origin_column", JValue.num 1), ("other", JValue.arr [JValue.num 0, JValue.num 1]), ("our",
      JValue.num 1), ("output", JValue.num 1), ("packag", JValue.arr [JValue.num 3, JValue.num 5]),
      ("packagingerror", JValue.num 1), ("page", JValue.num 3), ("pair", JValue.num 3), ("panda",
      JValue.num 1), ("paramet", JValue.num 1), ("parent", JValue.num 2), ("parquet", JValue.num 1), ("part",
      JValue.num 1), ("pass", JValue.arr [JValue.num 0, JValue.num 1]), ("patch", JValue.num 0), ("path",
      JValue.num 1), ("pathlib", JValue.num 1), ("physical_kei", JValue.num 1), ("pickabl", JValue.num 1),
      ("pip", JValue.arr [JValue.num 0, JValue.num 2, JValue.num 3, JValue.num 4]), ("place", JValue.num 1),
      ("pleas", JValue.num 3), ("possibl", JValue.num 0), ("preconfigur", JValue.num 1), ("prefect",
      JValue.num 1), ("prefer", JValue.num 4), ("previous", JValue.num 1), ("prior", JValue.num 1),
      ("problem", JValue.num 1), ("process", JValue.arr [JValue.num 1, JValue.num 4]), ("produc",
      JValue.num 1), ("progress_bar", JValue.num 1), ("project", JValue.num 0), ("project_local_staging_dir",
      JValue.num 1), ("properti", JValue.num 1), ("protect", JValue.num 1), ("pull",
      JValue.arr [JValue.num 0, JValue.num 1]), ("pure", JValue.num 1), ("purpos", JValue.num 1), ("push",
      JValue.arr [JValue.num 0, JValue.num 1]), ("py_txt", JValue.num 2), ("pypi", JValue.num 0), ("python",
      JValue.arr [JValue.num 0, JValue.num 4]), ("quilt3", JValue.num 1), ("quilt", JValue.num 1),
      ("quilt_package_nam", JValue.num 1), ("quilt_package_own", JValue.num 1), ("quilt_util", JValue.num 5),
      ("ran", JValue.num 1), ("rare", JValue.num 3), ("read", JValue.num 0), ("readi",
      JValue.arr [JValue.num 0, JValue.num 1]), ("recent", JValue.arr [JValue.num 1, JValue.num 4]),
      ("reciev", JValue.num 1), ("recommend", JValue.num 0), ("recurs", JValue.num 0), ("refer",
      JValue.num 1), ("reject", JValue.num 1), ("rel", JValue.num 1), ("relat", JValue.num 3),
      ("relative_dir", JValue.num 1), ("releas", JValue.num 3), ("reli", JValue.num 1), ("remind",
      JValue.num 0), ("remot", JValue.num 1), ("remov", JValue.num 1), ("repo", JValue.arr [JValue.num 0,
      JValue.num 4]), ("repositori", JValue.num 4), ("request", JValue.arr [JValue.num 0, JValue.num 1]),
      ("requir", JValue.num 1), ("reset", JValue.num 1), ("resolv", JValue.num 0), ("resolve_directori",
      JValue.num 1), ("resolve_filepath", JValue.num 1), ("result", JValue.num 1), ("retriev", JValue.num 1),
      ("rich", JValue.num 3), ("route_valid", JValue.num 1), ("run", JValue.arr [JValue.num 0, JValue.num 1,
      JValue.num 4]), ("sampl", JValue.num 2), ("script", JValue.num 2), ("search", JValue.num 3), ("see",
      JValue.num 3), ("send", JValue.num 1), ("set", JValue.arr [JValue.num 0, JValue.num 1]), ("setup",
      JValue.num 4), ("should", JValue.arr [JValue.num 1, JValue.num 3]), ("shouldn", JValue.num 1),
      ("softwar", JValue.num 3), ("sole", JValue.num 1), ("some", JValue.num 1), ("sourc",
      JValue.arr [JValue.num 1, JValue.num 2]), ("specif", JValue.num 1), ("stabl", JValue.arr [JValue.num 0,
      JValue.num 3]), ("stage", JValue.num 1), ("start", JValue.num 3), ("state", JValue.num 1), ("statu",
      JValue.num 1), ("step", JValue.arr [JValue.num 3, JValue.num 5]), ("step_local_staging_dir",
      JValue.num 1), ("step_nam", JValue.num 1), ("step_pkg_root", JValue.num 1), ("stepwis", JValue.num 1),
      ("stepworkflow", JValue.num 3), ("storage_bucket", JValue.num 1), ("store", JValue.num 1), ("str",
      JValue.num 1), ("strict", JValue.num 1), ("string", JValue.num 1), ("submit", JValue.num 0),
      ("submodul", JValue.arr [JValue.num 0, JValue.num 5]), ("subpackag", JValue.num 5), ("support",
      JValue.num 1), ("sure", JValue.num 0), ("tag", JValue.num 0), ("tarbal", JValue.num 4), ("task",
      JValue.num 1), ("termin", JValue.num 4), ("test", JValue.num 0), ("thei", JValue.num 0), ("them",
      JValue.num 1), ("thi", JValue.arr [JValue.num 1, JValue.num 2, JValue.num 3, JValue.num 4]), ("those",
      JValue.num 1), ("though", JValue.num 1), ("through", JValue.arr [JValue.num 0, JValue.num 1,
      JValue.num 4]), ("tied", JValue.arr [JValue.num 1, JValue.num 3]), ("tiff", JValue.num 0), ("top",
      JValue.num 1), ("tupl", JValue.num 1), ("type", JValue.num 1), ("union", JValue.num 1), ("upload",
      JValue.num 1), ("upstream", JValue.num 1), ("upstream_task", JValue.num 1), ("use", JValue.num 1),
      ("used", JValue.arr [JValue.num 1, JValue.num 3]), ("user", JValue.arr [JValue.num 1, JValue.num 2]),
      ("using", JValue.arr [JValue.num 1, JValue.num 2, JValue.num 3]), ("util", JValue.arr [JValue.num 1,
      JValue.num 3]), ("validate_filepath", JValue.num 1), ("validate_manifest", JValue.num 1),
      ("validationdetail", JValue.num 1), ("valu", JValue.num 1), ("version", JValue.arr [JValue.num 0,
      JValue.num 1]), ("virtualenv", JValue.arr [JValue.num 0, JValue.num 2]), ("visit", JValue.num 3),
      ("want", JValue.num 1), ("websit", JValue.num 0), ("welcom", JValue.num 0), ("what", JValue.num 1),
      ("when", JValue.arr [JValue.num 0, JValue.num 1, JValue.num 2]), ("which", JValue.num 1), ("work",
      JValue.num 0), ("workflow", JValue.arr [JValue.num 1, JValue.num 3]), ("workflow_config",
      JValue.num 1), ("would", JValue.num 1), ("you", JValue.arr [JValue.num 0, JValue.num 1, JValue.num 3,
      JValue.num 4]), ("your", JValue.arr [JValue.num 0, JValue.num 1, JValue.num 4]),
      ("your_development_typ", JValue.num 0), ("your_name_her", JValue.num 0)]),
    ("titles", JValue.arr [JValue.str "Contributing", JValue.str "datastep package",
      JValue.str "datastep.bin package", JValue.str "Welcome to datastep\u2019s documentation!",
      JValue.str "Installation", JValue.str "datastep"]),
    ("titleterms", JValue.obj [("bin", JValue.num 2), ("constant", JValue.num 1), ("content",
      JValue.arr [JValue.num 1, JValue.num 2]), ("contribut", JValue.num 0), ("datastep",
      JValue.arr [JValue.num 1, JValue.num 2, JValue.num 3, JValue.num 5]), ("deploi", JValue.num 0),
      ("develop", JValue.num 3), ("document", JValue.num 3), ("except", JValue.num 1), ("file_util",
      JValue.num 1), ("from", JValue.num 4), ("get", JValue.num 0), ("indic", JValue.num 3), ("instal",
      JValue.arr [JValue.num 3, JValue.num 4]), ("make_new_step", JValue.num 2), ("modul",
      JValue.arr [JValue.num 1, JValue.num 2]), ("packag", JValue.arr [JValue.num 1, JValue.num 2]),
      ("quilt_util", JValue.num 1), ("releas", JValue.num 4), ("sourc", JValue.num 4), ("stabl",
      JValue.num 4), ("start", JValue.num 0), ("step", JValue.num 1), ("submodul", JValue.arr [JValue.num 1,
      JValue.num 2]), ("subpackag", JValue.num 1), ("tabl", JValue.num 3), ("welcom", JValue.num 3)])]

/-! ## Accessors for JSON values -/

/-- Look up a key in a JSON object (`none` for non-objects or missing keys). -/
def JValue.get? : JValue → String → Option JValue
  | JValue.obj kvs, k => (kvs.find? (fun kv => kv.1 == k)).map Prod.snd
  | _, _ => none

/-- The key list of a JSON object (empty for non-objects). -/
def JValue.keys : JValue → List String
  | JValue.obj kvs => kvs.map Prod.fst
  | _ => []

/-- The entry list of a JSON object (empty for non-objects). -/
def JValue.entries : JValue → List (String × JValue)
  | JValue.obj kvs => kvs
  | _ => []

/-- The element list of a JSON array (empty for non-arrays). -/
def JValue.elems : JValue → List JValue
  | JValue.arr xs => xs
  | _ => []

/-- `true` iff the value is an object. -/
def isObjB : JValue → Bool
  | JValue.obj _ => true
  | _ => false

/-- `true` iff the value is a string. -/
def isStrB : JValue → Bool
  | JValue.str _ => true
  | _ => false

/-- The number of entries of the `docnames` array: the bound that every
document index in the search index must respect. -/
def docBound : Nat := ((searchIndex.get? "docnames").map (fun j => j.elems.length)).getD 0

/-! ## Document-index bounds (C1) -/

/-- `true` iff the value is a number strictly below `bound`. -/
def natBelow (bound : Nat) : JValue → Bool
  | JValue.num n => n < bound
  | _ => false

/-- `true` iff the value is a legal `terms`/`titleterms` value for document
indices below `bound`: a single number below `bound` or an array of numbers
below `bound`. -/
def idxValue (bound : Nat) : JValue → Bool
  | JValue.num n => n < bound
  | JValue.arr xs => xs.all (natBelow bound)
  | _ => false

/-- `true` iff the value is an array whose first element is a number strictly
below `bound`. -/
def firstIdxBelow (bound : Nat) : JValue → Bool
  | JValue.arr (JValue.num n :: _) => n < bound
  | _ => false

/-- All document indices referenced in `objects` (first tuple component),
`terms` and `titleterms` are below `docBound`. -/
def c1check : Bool :=
  match searchIndex.get? "objects", searchIndex.get? "terms", searchIndex.get? "titleterms" with
  | some o, some t, some tt =>
      o.entries.all (fun kv => kv.2.entries.all (fun sym => firstIdxBelow docBound sym.2)) &&
      t.entries.all (fun kv => idxValue docBound kv.2) &&
      tt.entries.all (fun kv => idxValue docBound kv.2)
  | _, _, _ => false

/-! ## Top-level keys (C2) -/

/-- The top-level keys enumerated in spec §3. -/
def specTopKeys : List String :=
  ["docnames", "filenames", "objects", "objnames", "objtypes", "terms", "titles", "titleterms"]

/-! ## Keys of `objects` (C3) -/

/-- Key list of the `objects` mapping. -/
def objectsKeys : List String := ((searchIndex.get? "objects").map JValue.keys).getD []

/-- `true` iff the character is a decimal digit. -/
def isDigitCh (c : Char) : Bool := 48 ≤ c.toNat && c.toNat ≤ 57

/-- Parse a string as a decimal natural number; `none` when the string is
empty or contains a non-digit character. -/
def parseNat? (s : String) : Option Nat :=
  if !s.data.isEmpty && s.data.all isDigitCh then
    some (s.data.foldl (fun n c => n * 10 + (c.toNat - 48)) 0)
  else none

/-- `true` iff the first character list is an initial segment of the second. -/
def prefixChars : List Char → List Char → Bool
  | [], _ => true
  | _, [] => false
  | a :: as, b :: bs => a == b && prefixChars as bs

/-! ## Keys of `terms` (C4) -/

/-- `true` iff the character is an ASCII uppercase letter. -/
def isUpperCh (c : Char) : Bool := 65 ≤ c.toNat && c.toNat ≤ 90

/-- `true` iff the string contains an ASCII uppercase letter. -/
def hasUpperCh (s : String) : Bool := s.data.any isUpperCh

/-- Key list of the `terms` mapping. -/
def termsKeys : List String := ((searchIndex.get? "terms").map JValue.keys).getD []

/-! ## Shape of `objects` values (C5) -/

/-- `true` iff the value is an array of exactly four elements of shape
(number, number, number, string). -/
def isObjectTuple : JValue → Bool
  | JValue.arr [JValue.num _, JValue.num _, JValue.num _, JValue.str _] => true
  | _ => false

/-- Every symbol entry in every inner mapping of `objects` carries a
(number, number, number, string) 4-tuple. -/
def c5check : Bool :=
  match searchIndex.get? "objects" with
  | some o =>
      isObjB o &&
      o.entries.all (fun kv =>
        isObjB kv.2 && kv.2.entries.all (fun sym => isObjectTuple sym.2))
  | none => false

/-! ## `filenames` parallel to `docnames` (C6) -/

/-- `true` iff the two lists are string lists of equal length and each
filename is the corresponding docname followed by `.rst`. -/
def filenamesMatch : List JValue → List JValue → Bool
  | [], [] => true
  | JValue.str d :: ds, JValue.str f :: fs =>
      f == d ++ ".rst" && filenamesMatch ds fs
  | _, _ => false

/-- `docnames` and `filenames` are parallel string arrays related by the
`.rst` suffix. -/
def c6check : Bool :=
  match searchIndex.get? "docnames", searchIndex.get? "filenames" with
  | some (JValue.arr ds), some (JValue.arr fs) => !ds.isEmpty && filenamesMatch ds fs
  | _, _ => false

/-! ## `objnames` and `objtypes` (C7) -/

/-- The five object categories of the index, in key order `0`..`4`. -/
def categoryLabels : List String := ["module", "class", "function", "exception", "method"]

/-- `true` iff the value is a triple of strings whose first element is `py`
and whose middle element is `cat`. -/
def isObjnameTriple (cat : String) : JValue → Bool
  | JValue.arr [JValue.str p, JValue.str c, JValue.str _] => p == "py" && c == cat
  | _ => false

/-- `true` iff the value is the string `py:` followed by `cat`. -/
def isObjtypeStr (cat : String) : JValue → Bool
  | JValue.str s => s == "py:" ++ cat
  | _ => false

/-- Walk the entries of `objnames` and `objtypes` in parallel with the
expected category list: keys must agree pairwise and each category label
must match on both sides. -/
def objnamesObjtypesMatch : List (String × JValue) → List (String × JValue) → List String → Bool
  | [], [], [] => true
  | (k1, v1) :: xs, (k2, v2) :: ys, c :: cs =>
      k1 == k2 && isObjnameTriple c v1 && isObjtypeStr c v2 && objnamesObjtypesMatch xs ys cs
  | _, _, _ => false

/-- `objnames` and `objtypes` both have keys `0`..`4` and encode, in order,
the categories of `categoryLabels`. -/
def c7check : Bool :=
  match searchIndex.get? "objnames", searchIndex.get? "objtypes" with
  | some (JValue.obj ons), some (JValue.obj ots) =>
      (ons.map Prod.fst == ["0", "1", "2", "3", "4"]) &&
      objnamesObjtypesMatch ons ots categoryLabels
  | _, _ => false

/-! ## `titles` and `titleterms` (C8) -/

/-- `titles` is a string array as long as `docnames`, and every document
index referenced in `titleterms` is a valid index into `titles`. -/
def c8check : Bool :=
  match searchIndex.get? "titles", searchIndex.get? "docnames", searchIndex.get? "titleterms" with
  | some (JValue.arr ts), some (JValue.arr ds), some tt =>
      (ts.length == ds.length) && ts.all isStrB && isObjB tt &&
      tt.entries.all (fun kv => idxValue ts.length kv.2)
  | _, _, _ => false

/-! ## Sortedness of index sequences (C9) -/

/-- `true` iff the list is a strictly increasing sequence of numbers. -/
def strictlyIncreasing : List JValue → Bool
  | [] => true
  | [JValue.num _] => true
  | JValue.num a :: JValue.num b :: rest =>
      a < b && strictlyIncreasing (JValue.num b :: rest)
  | _ => false

/-- `true` iff every array value in the mapping is a non-empty strictly
increasing sequence of numbers (non-array values are unconstrained). -/
def arrayValuesSortedIn (m : JValue) : Bool :=
  m.entries.all (fun kv =>
    match kv.2 with
    | JValue.arr xs => !xs.isEmpty && strictlyIncreasing xs
    | _ => true)

/-- In `terms` and `titleterms`, every array value is a non-empty strictly
increasing sequence. -/
def c9check : Bool :=
  match searchIndex.get? "terms", searchIndex.get? "titleterms" with
  | some t, some tt => isObjB t && isObjB tt && arrayValuesSortedIn t && arrayValuesSortedIn tt
  | _, _ => false

/-! ## Type codes and priorities in `objects` (C10) -/

/-- `true` iff the value is a 4-tuple whose type code (second element) occurs
in both numeric key lists and whose priority (third element) is 0 for type
code 0 and 1 for every other type code. -/
def tupleTypeAndPriority (cn ct : List Nat) : JValue → Bool
  | JValue.arr [JValue.num _, JValue.num t, JValue.num p, JValue.str _] =>
      cn.contains t && ct.contains t && (p == if t == 0 then 0 else 1)
  | _ => false

/-- Every 4-tuple of `objects` has a type code that is a key of `objnames`
and of `objtypes`, and a priority of 0 exactly for modules (code 0),
1 otherwise. -/
def c10check : Bool :=
  match searchIndex.get? "objects", searchIndex.get? "objnames", searchIndex.get? "objtypes" with
  | some o, some onv, some otv =>
      o.entries.all (fun kv =>
        kv.2.entries.all (fun sym =>
          tupleTypeAndPriority (onv.keys.filterMap parseNat?) (otv.keys.filterMap parseNat?) sym.2))
  | _, _, _ => false

/-! ## Claim theorems -/

set_option maxRecDepth 100000

/-- Claim C1: every document index referenced in the object passed to
`Search.setIndex` — the first element of every 4-tuple in every inner
mapping of `objects`, and every index value (single or in a list) in
`terms` and `titleterms` — is a natural number strictly less than the
length of `docnames`, which is 6. -/
theorem doc_indices_below_docnames_length : docBound = 6 ∧ c1check = true := by
  exact ⟨rfl, rfl⟩

/-- Claim C2, counterexample: `envversion` is a top-level key of the object
passed to `Search.setIndex`, but it is not among the keys enumerated in
spec §3, so the object does not have exactly the enumerated keys. -/
theorem top_key_envversion_not_in_spec :
    "envversion" ∈ searchIndex.keys ∧ "envversion" ∉ specTopKeys := by
  decide

/-- Claim C2, amended: the top-level keys of the object passed to
`Search.setIndex` are exactly the eight keys enumerated in spec §3 together
with one additional key `envversion`. -/
theorem top_keys_exactly :
    searchIndex.keys =
      ["docnames", "envversion", "filenames", "objects", "objnames", "objtypes",
       "terms", "titles", "titleterms"] := by
  rfl

/-- Claim C3, counterexample: `datastep.bin` is a top-level key of the
`objects` mapping, and it does not denote a natural number at all, so not
every top-level key of `objects` is a document index. -/
theorem objects_key_not_numeric :
    "datastep.bin" ∈ objectsKeys ∧ parseNat? "datastep.bin" = none := by
  decide

/-- Claim C3, amended: every top-level key of the `objects` mapping is a
module-name string — the empty string or a dotted name starting with
`datastep` — rather than a document index. -/
theorem objects_keys_are_module_names :
    objectsKeys ≠ [] ∧
    objectsKeys.all (fun k => k == "" || prefixChars "datastep".data k.data) = true := by
  exact ⟨by decide, rfl⟩

/-- Claim C4, counterexample: `For` is a key of the `terms` mapping and
contains an uppercase character, so not every key of `terms` is lowercase. -/
theorem terms_key_with_uppercase :
    "For" ∈ termsKeys ∧ hasUpperCh "For" = true := by
  decide

/-- Claim C4, amended: the keys of the `terms` mapping that contain an
uppercase character are exactly `For`, `The`, `Then`, `There` and `Useful`;
every other key contains no uppercase character. -/
theorem terms_uppercase_keys :
    termsKeys.filter hasUpperCh = ["For", "The", "Then", "There", "Useful"] := by
  rfl

/-- Claim C5: for every entry of `objects` and every symbol name in its inner
mapping, the associated value is an array of exactly four elements of shape
(number, number, number, string). -/
theorem objects_values_are_4_tuples : c5check = true := by rfl

/-- Claim C6: `filenames` is parallel to `docnames` — equal lengths, and each
entry of `filenames` is the corresponding entry of `docnames` followed by
the suffix `.rst`. -/
theorem filenames_parallel_docnames : c6check = true := by rfl

/-- Claim C7: `objnames` and `objtypes` both have exactly the keys `0`..`4`,
`objtypes` maps each code to `py:` followed by its category, and `objnames`
maps each code to a triple whose middle element is that category, the five
categories being module, class, function, exception and method in order. -/
theorem objnames_objtypes_categories : c7check = true := by rfl

/-- Claim C8: `titles` is a string array with exactly one title per document
(its length equals the length of `docnames`), and every document index
referenced as a value in `titleterms` is a valid index into `titles`. -/
theorem titles_parallel_and_titleterms_in_bounds : c8check = true := by rfl

/-- Claim C9: in both `terms` and `titleterms`, every value that is an array
of document indices is non-empty and strictly increasing. -/
theorem terms_sequences_strictly_increasing : c9check = true := by rfl

/-- Claim C10: every type code appearing as the second element of a 4-tuple
in `objects` is a key of both `objnames` and `objtypes`, and the priority
(third element) is 0 when the type code is 0 (module) and 1 otherwise. -/
theorem object_type_codes_and_priorities : c10check = true := by rfl

end SearchIdx
